import Mathlib

/-!
Verification of the two demo scripts of the repository against their
natural-language specification:

* `demos/python_demos/face_recognition_demo_Azure_IoT/Face_gallery_sync.py`
  (namespace `FaceGallery`): a one-shot blob-to-local-folder sync.
* `demos/python_demos/speech_recognition_demo/utils/deep_speech_pipeline.py`
  (namespace `DeepSpeech`): the speech-to-text inference pipeline.

External collaborators (the Azure blob client, the OpenVINO inference
runtime, the audio-feature library `utils.audio_features`, the alphabet
module and the CTC beam-search decoder) are modelled abstractly, as the
spec's scope section directs: they appear as function-valued fields whose
behaviour the embedded code merely invokes.  Python exceptions are
modelled with `Except` over an explicit error type; machine floats used
only in the validation threshold are modelled as exact rationals (for
integer sampling rates the two semantics coincide).
-/

/-- Kind of a raised Python exception, by exception class. -/
inductive ErrKind
  | valueError
  | assertionError
  | runtimeError
  | typeError
  deriving DecidableEq, Repr

/-- A raised Python exception: class plus message. -/
structure PyErr where
  kind : ErrKind
  msg : String
  deriving DecidableEq, Repr

namespace FaceGallery

/-!
## Gallery sync (`Face_gallery_sync.py`)

The local filesystem is modelled as an association list from paths to
byte contents (`List.lookup`, first entry wins — matching that a write
makes the path's content the written bytes).  Directory creation
(`os.makedirs`) has no observable effect on the file map and is omitted.
The remote store is modelled as the data the Azure client calls return,
with each call's possible failure recorded in the data itself.
-/

/-- A file's byte content. -/
abbrev Bytes := List Nat

/-- The local filesystem: path ↦ content, first entry wins. -/
abbrev FS := List (String × Bytes)

/-- Errors the Azure client calls can raise: `ResourceNotFoundError`,
or any other exception (carrying its message). -/
inductive SyncErr
  | resourceNotFound
  | other (msg : String)
  deriving DecidableEq, Repr

instance {ε α : Type} [DecidableEq ε] [DecidableEq α] : DecidableEq (Except ε α) :=
  fun x y =>
    match x, y with
    | .ok a, .ok b =>
      if h : a = b then .isTrue (by rw [h]) else .isFalse (by simp [h])
    | .ok _, .error _ => .isFalse (by simp)
    | .error _, .ok _ => .isFalse (by simp)
    | .error a, .error b =>
      if h : a = b then .isTrue (by rw [h]) else .isFalse (by simp [h])

/-- A remote blob as enumerated by `container_id.list_blobs()`: its name and
the result of `blob_client.download_blob().readall()` on it (the download
may find the blob gone — `ResourceNotFoundError` — or fail otherwise). -/
structure Blob where
  name : String
  download : Except SyncErr Bytes
  deriving DecidableEq, Repr

/-- A remote container: its name, metadata, and the result of listing its
blobs. -/
structure Container where
  name : String
  metadata : List (String × String)
  blobs : Except SyncErr (List Blob)
  deriving DecidableEq, Repr

/-- The remote store behind the connection string: the result of
`blob_service_client.list_containers(...)`. -/
structure Store where
  containers : Except SyncErr (List Container)
  deriving DecidableEq, Repr

/-- `os.path.join(local_path, blob.name)` for the mirror root
`os.path.join(os.path.expanduser("~"), 'Face_Gallery')`; `home` stands for
the expanded home directory. -/
def localPath (home : String) (name : String) : String :=
  home ++ "/Face_Gallery/" ++ name

/-- `open(path,'wb+'); write(stream); close()`: the path's content becomes
the written bytes. -/
def writeFile (fs : FS) (path : String) (content : Bytes) : FS :=
  (path, content) :: fs

/-- The body of the per-blob loop iteration (lines 27–48): check local
existence; when absent, download and write, with `ResourceNotFoundError`
caught and logged (`"No blob found."`) in the per-blob handler.  Any other
download error escapes this iteration (to the top-level handler); the
error result carries the filesystem as left by the aborted iteration. -/
def syncBlob (home : String) (fs : FS) (b : Blob) : Except (SyncErr × FS) FS :=
  if (fs.lookup (localPath home b.name)).isSome then
    .ok fs
  else
    match b.download with
    | .ok content => .ok (writeFile fs (localPath home b.name) content)
    | .error .resourceNotFound => .ok fs
    | .error (.other m) => .error (.other m, fs)

/-- The per-container blob loop: iterate `syncBlob` over the enumerated
blobs, threading the filesystem; an uncaught error aborts the loop. -/
def syncBlobs (home : String) (fs : FS) : List Blob → Except (SyncErr × FS) FS
  | [] => .ok fs
  | b :: rest =>
    match syncBlob home fs b with
    | .ok fs1 => syncBlobs home fs1 rest
    | .error e => .error e

/-- One container iteration: list the container's blobs (which may itself
raise) and run the blob loop. -/
def syncContainer (home : String) (fs : FS) (c : Container) :
    Except (SyncErr × FS) FS :=
  match c.blobs with
  | .ok bs => syncBlobs home fs bs
  | .error e => .error (e, fs)

/-- The container loop of `run_sample`. -/
def syncContainers (home : String) (fs : FS) : List Container → Except (SyncErr × FS) FS
  | [] => .ok fs
  | c :: rest =>
    match syncContainer home fs c with
    | .ok fs1 => syncContainers home fs1 rest
    | .error e => .error e

/-- `run_sample(azs_storage)` (lines 8–50): enumerate containers and blobs
and mirror missing blobs locally.  The top-level `except Exception` catches
every error, prints it, and ends the run, so the function always returns;
its value is the filesystem as left when the run ended. -/
def run_sample (home : String) (store : Store) (fs : FS) : FS :=
  match store.containers with
  | .error _ => fs
  | .ok cs =>
    match syncContainers home fs cs with
    | .ok fs1 => fs1
    | .error (_, fs1) => fs1

/-- All blobs the run enumerates, in order, over all containers whose
listing succeeds. -/
def enumBlobs (store : Store) : List Blob :=
  match store.containers with
  | .error _ => []
  | .ok cs =>
    cs.flatMap fun c =>
      match c.blobs with
      | .ok bs => bs
      | .error _ => []

/-- `run_sample` requires one positional parameter, `azs_storage`. -/
def run_sample_required_args : Nat := 1

/-- Number of arguments the `__main__` block passes: `run_sample()`. -/
def main_call_args : Nat := 0

/-- Python call semantics for `run_sample`: a call supplying fewer
positional arguments than the one required parameter raises `TypeError`
before the function body (and hence its `try` block) runs. -/
def call_run_sample (home : String) (fs : FS) (args : List Store) :
    Except PyErr FS :=
  match args with
  | [store] => .ok (run_sample home store fs)
  | [] => .error ⟨.typeError,
      "run_sample() missing 1 required positional argument: azs_storage"⟩
  | _ => .error ⟨.typeError,
      "run_sample() takes 1 positional argument but more were given"⟩

/-- The `__main__` block (lines 54–55): `run_sample()` with no argument. -/
def script_main (home : String) (fs : FS) : Except PyErr FS :=
  call_run_sample home fs []

end FaceGallery

namespace DeepSpeech

/-!
## Speech pipeline (`utils/deep_speech_pipeline.py`)

Numpy arrays of rank 2 are lists of rows over exact rationals.  The
collaborators — the inference runtime (`IECore`, the loaded network, the
executable network and its `infer` call), the audio-feature library
(`audio_spectrogram`, `mfcc`) and the beam-search decoder — are abstract
function-valued fields: the pipeline only sequences their calls.
-/

/-- One row of MFCC coefficients (one time frame). -/
abbrev Frame := List ℚ

/-- One context window: `num_context_frames` consecutive frames. -/
abbrev Window := List Frame

/-- The named outputs of one `exec_net.infer` call: the `'logits'` tensor
after `squeeze(1)` (one row per batch slot) and the two updated LSTM state
tensors. -/
structure InferResult where
  logits : List (List ℚ)
  state_h : List ℚ
  state_c : List ℚ

/-- An executable network (`ie.load_network` result): one forward pass from
`previous_state_h`, `previous_state_c` and the batched `input_node`. -/
structure ExecNet where
  infer : List ℚ → List ℚ → List Window → InferResult

/-- A loaded IR network (`ie.read_network` result); only its layer names
are observable here (used by the node-support check). -/
structure IENet where
  layers : List String

/-- The inference-runtime collaborator (`IECore`). -/
structure IECore where
  read_network : String → String → IENet
  query_network : IENet → String → List String
  load_network : IENet → String → ExecNet

/-- The audio-feature library collaborator (`utils.audio_features`). -/
structure FeatureLib where
  audio_spectrogram : List ℚ → ℚ → ℚ → Bool → List (List ℚ)
  mfcc : List (List ℚ) → ℚ → Nat → List Frame

/-- The beam-search decoder collaborator
(`CtcnumpyBeamSearchDecoder.decode`): probability matrix to ranked
(-log score, text) hypotheses. -/
structure Decoder where
  decode : List (List ℚ) → List (ℚ × String)

/-- The `DeepSpeechPipeline` instance state: the collaborator bindings and
the fields `__init__` sets (`net`, `exec_net`, `default_device`).  The
model-parameter fields set at lines 43–48 are fixed constants, defined
below. -/
structure Pipeline where
  ie : IECore
  lib : FeatureLib
  decoder : Decoder
  net : IENet
  exec_net : Option ExecNet
  default_device : Option String

/-- `self.num_mfcc_dct_coefs = 26` -/
def num_mfcc_dct_coefs : Nat := 26

/-- `self.num_context_frames = 19` -/
def num_context_frames : Nat := 19

/-- `self.num_batch_frames = 16` -/
def num_batch_frames : Nat := 16

/-- `self.model_sample_rate = 16000` -/
def model_sample_rate : ℚ := 16000

/-- `self.frame_window_size_seconds = 32e-3` -/
def frame_window_size_seconds : ℚ := 32 / 1000

/-- `self.frame_stride_seconds = 20e-3` -/
def frame_stride_seconds : ℚ := 20 / 1000

/-- An input audio array: its numpy shape, its flat sample data, and
whether its dtype is an integer kind (`np.issubdtype(audio.dtype,
np.integer)`). -/
structure NpArray where
  shape : List Nat
  data : List ℚ
  isInt : Bool

/-- `(audio.shape + (1,))[1]`: the channel count used by the validation
check — the second shape entry when the array is at least 2-D, else 1.
(For the degenerate 0-D array Python would raise `IndexError`; theorems
about the check therefore assume a nonempty shape.) -/
def channels (a : NpArray) : Nat :=
  (a.shape ++ [1]).getD 1 1

/-- Lines 126–127: `if np.issubdtype(audio.dtype, np.integer): audio =
audio/np.float32(32768)`. -/
def normalize_audio (a : NpArray) : List ℚ :=
  if a.isInt then a.data.map (fun s => s / 32768) else a.data

/-- `extract_mfcc` (lines 122–136): validate the sampling rate and channel
count, raising `ValueError` otherwise; normalize integer input; then hand
the samples to the feature library (spectrogram, then MFCC). -/
def extract_mfcc (p : Pipeline) (audio : NpArray) (sampling_rate : ℚ) :
    Except PyErr (List Frame) :=
  if model_sample_rate * (1/10) < |sampling_rate - model_sample_rate| ∨
      channels audio ≠ 1 then
    .error ⟨.valueError, "Input audio file should be 16.0 kHz mono"⟩
  else
    let data := normalize_audio audio
    let spectrogram := p.lib.audio_spectrogram data
      (sampling_rate * frame_window_size_seconds)
      (sampling_rate * frame_stride_seconds) true
    .ok (p.lib.mfcc spectrogram sampling_rate num_mfcc_dct_coefs)

/-- An all-zero MFCC frame. -/
def zero_frame : Frame := List.replicate num_mfcc_dct_coefs 0

/-- Line 141: `padding = np.zeros((self.num_context_frames // 2,
self.num_mfcc_dct_coefs), ...)`. -/
def context_padding : List Frame :=
  List.replicate (num_context_frames / 2) zero_frame

/-- Line 142: `np.concatenate((padding, mfcc_features, padding))`. -/
def padded_features (feats : List Frame) : List Frame :=
  context_padding ++ feats ++ context_padding

/-- Lines 144–151: the strided view — window `i` is rows
`i .. i + num_context_frames - 1` of the padded features, for
`i < len(padded) - num_context_frames + 1`. -/
def context_windows (l : List Frame) : List Window :=
  (List.range (l.length + 1 - num_context_frames)).map fun i =>
    (l.drop i).take num_context_frames

/-- An all-zero context window (what `np.pad` appends to a short chunk). -/
def zero_window : Window := List.replicate num_context_frames zero_frame

/-- Lines 163–173: a chunk shorter than the batch size is zero-padded up to
`num_batch_frames` windows. -/
def padChunk (b : List Window) : List Window :=
  if b.length < num_batch_frames then
    b ++ List.replicate (num_batch_frames - b.length) zero_window
  else b

/-- The loop bounds `for i in range(0, N, num_batch_frames)` with slicing
`chunk = mfcc_features[i : i + num_batch_frames]`: iteration `k` (of
`⌈N / num_batch_frames⌉` in all) takes the windows starting at
`i = num_batch_frames * k`. -/
def toBatches (l : List Window) : List (List Window) :=
  (List.range ((l.length + (num_batch_frames - 1)) / num_batch_frames)).map fun k =>
    (l.drop (num_batch_frames * k)).take num_batch_frames

/-- Line 153–157: the initial recurrent state when `state is None` —
`np.zeros((1, 2048))` for both the hidden and the cell vector. -/
def zero_state : List ℚ × List ℚ :=
  (List.replicate 2048 0, List.replicate 2048 0)

/-- The inference loop (lines 159–182): for each batch, pad it, run one
forward pass from the current state, collect the logits rows and thread
the updated state to the next batch. -/
def runBatches (e : ExecNet) (state_h state_c : List ℚ) :
    List (List Window) → List (List (List ℚ)) × (List ℚ × List ℚ)
  | [] => ([], (state_h, state_c))
  | b :: rest =>
    let r := e.infer state_h state_c (padChunk b)
    let (pss, st) := runBatches e r.state_h r.state_c rest
    (r.logits :: pss, st)

/-- `extract_per_frame_probs` (lines 138–188): assert activation, pad and
window the features, run the batched inference loop from the given state
(zero when none is given), and concatenate the per-batch probabilities.
The source returns the final state only when `return_state=True`; the
model returns it always and `recognize_audio` discards it. -/
def extract_per_frame_probs (p : Pipeline) (mfcc_features : List Frame)
    (state : Option (List ℚ × List ℚ)) :
    Except PyErr (List (List ℚ) × (List ℚ × List ℚ)) :=
  match p.exec_net with
  | none => .error ⟨.assertionError,
      "Need to call mds.activate(device) method before mds.stt(...)"⟩
  | some e =>
    let windows := context_windows (padded_features mfcc_features)
    let st0 := state.getD zero_state
    let r := runBatches e st0.1 st0.2 (toBatches windows)
    .ok (r.1.flatten, r.2)

/-- `decode_probs` (lines 190–194). -/
def decode_probs (p : Pipeline) (probs : List (List ℚ)) : List (ℚ × String) :=
  p.decoder.decode probs

/-- `recognize_audio` (lines 115–120): features, per-frame probabilities
(no state argument passed), decode. -/
def recognize_audio (p : Pipeline) (audio : NpArray) (sampling_rate : ℚ) :
    Except PyErr (List (ℚ × String)) :=
  (extract_mfcc p audio sampling_rate).bind fun mfcc_features =>
    (extract_per_frame_probs p mfcc_features none).map fun pr =>
      decode_probs p pr.1

/-- `activate_model` (lines 109–113): a no-op once `exec_net` is set,
otherwise load the network onto the device. -/
def activate_model (p : Pipeline) (device : String) : Pipeline :=
  if p.exec_net.isSome then p
  else { p with exec_net := some (p.ie.load_network p.net device) }

/-- Line 83–84: the default weights filename — the model's basename with
its last extension replaced by `.bin`, joined back onto its directory. -/
def model_bin_default (model_xml : String) : String :=
  let parts := model_xml.splitOn "/"
  let base := parts.getLastD ""
  let pieces := base.splitOn "."
  let stem := if pieces.length ≤ 1 then base
    else String.intercalate "." pieces.dropLast
  let dir := parts.dropLast
  if dir = [] then stem ++ ".bin"
  else String.intercalate "/" dir ++ "/" ++ stem ++ ".bin"

/-- `_check_ir_nodes` (lines 98–107): `RuntimeError` when the device does
not support every layer of the network. -/
def check_ir_nodes (ie : IECore) (net : IENet) (device : String) :
    Except PyErr Unit :=
  let supported := ie.query_network net device
  let unsupported := net.layers.filter fun l => ¬ l ∈ supported
  if unsupported = [] then .ok ()
  else .error ⟨.runtimeError,
    "Following layers are not supported by the plugin for specified device "
      ++ device ++ ": " ++ String.intercalate ", " unsupported
      ++ ".  Please try to specify IE extension library path with --cpu_extension command line argument"⟩

/-- `__init__` (lines 19–68) restricted to the fields the claims observe:
set `net = exec_net = None` and `default_device = device`, read the network
(`_load_net`, with the weights path defaulted), check node support when a
device is given, and — only when a device is given — activate the model.
Alphabet resolution and the decoder construction are collaborator calls
with no bearing on these fields and enter through the `lib` and `decoder`
bindings. -/
def init (ie : IECore) (lib : FeatureLib) (decoder : Decoder)
    (model : String) (model_bin : Option String) (device : Option String) :
    Except PyErr Pipeline :=
  let bin := match model_bin with
    | some b => b
    | none => model_bin_default model
  let net := ie.read_network model bin
  let p0 : Pipeline :=
    { ie := ie, lib := lib, decoder := decoder, net := net,
      exec_net := none, default_device := device }
  match device with
  | none => .ok p0
  | some d =>
    (check_ir_nodes ie net d).map fun _ => activate_model p0 d

/-!
### Concrete fixtures

Closed instances of the collaborator structures, used to evaluate the
theorems below at concrete inputs.
-/

/-- A trivial executable network. -/
def wExec : ExecNet := ⟨fun _ _ _ => ⟨[], [], []⟩⟩

/-- An executable network that fills every batch slot: 16 logits rows per
forward pass, as the fixed-batch DeepSpeech IR does. -/
def wExec16 : ExecNet := ⟨fun _ _ _ => ⟨List.replicate 16 [], [], []⟩⟩

/-- A trivial inference runtime. -/
def wIE : IECore := ⟨fun _ _ => ⟨[]⟩, fun _ _ => [], fun _ _ => wExec⟩

/-- A trivial audio-feature library. -/
def wLib : FeatureLib := ⟨fun _ _ _ _ => [], fun _ _ _ => []⟩

/-- A trivial decoder. -/
def wDecoder : Decoder := ⟨fun _ => []⟩

/-- An activated pipeline built from the trivial collaborators. -/
def wPipeline : Pipeline :=
  ⟨wIE, wLib, wDecoder, ⟨[]⟩, some wExec, some "CPU"⟩

/-- An activated pipeline whose network fills every batch slot. -/
def wPipeline16 : Pipeline :=
  ⟨wIE, wLib, wDecoder, ⟨[]⟩, some wExec16, some "CPU"⟩

/-- A 4-sample 1-D floating audio array. -/
def wAudioF : NpArray := ⟨[4], [0, 0, 0, 0], false⟩

/-- A 1-sample integer audio array holding the largest `int32` value. -/
def wAudioI32 : NpArray := ⟨[1], [2147483647], true⟩

/-- A 2-sample integer audio array within the `int16` range. -/
def wAudioI16 : NpArray := ⟨[2], [-32768, 100], true⟩

end DeepSpeech

namespace FaceGallery

/-- A store with the same blob name `"a"` in two containers, with
different contents: the flat mirror path collides. -/
def wStore : Store :=
  ⟨.ok [⟨"c1", [], .ok [⟨"a", .ok [1]⟩]⟩,
        ⟨"c2", [], .ok [⟨"a", .ok [2]⟩]⟩]⟩

/-- A blob whose download hits `ResourceNotFoundError`. -/
def wBlobGone : Blob := ⟨"x", .error .resourceNotFound⟩

/-- A blob whose download raises some other exception. -/
def wBlobBad : Blob := ⟨"y", .error (.other "boom")⟩

/-- A store whose only container lists `wBlobBad` then a healthy blob. -/
def wStoreBad : Store :=
  ⟨.ok [⟨"c1", [], .ok [wBlobBad, ⟨"z", .ok [7]⟩]⟩]⟩

/-- A store with two distinct healthy blobs in one container. -/
def wStoreTwo : Store :=
  ⟨.ok [⟨"c1", [], .ok [⟨"a", .ok [1]⟩, ⟨"b", .ok [2]⟩]⟩]⟩

/-- A local mirror that already holds blob `"b"`'s path, with bytes that
differ from the remote content. -/
def wFS0 : FS := [(localPath "h" "b", [9])]

end FaceGallery

/-!
## Theorems
-/

namespace DeepSpeech

/-- C1: `recognize_audio` passes no state to `extract_per_frame_probs`,
which therefore behaves exactly as if the all-zero recurrent state
`(np.zeros((1,2048)), np.zeros((1,2048)))` had been passed explicitly: the
first inference chunk starts from zeros, and the returned hypotheses are a
function of the pipeline's static bindings and this call's arguments alone
(no recurrent state survives between `recognize_audio` calls). -/
theorem ds_c1_zero_initial_state (p : Pipeline) (audio : NpArray)
    (sampling_rate : ℚ) :
    recognize_audio p audio sampling_rate =
      (extract_mfcc p audio sampling_rate).bind (fun mfcc_features =>
        (extract_per_frame_probs p mfcc_features (some zero_state)).map fun pr =>
          decode_probs p pr.1)
    ∧ ∀ mfcc_features, extract_per_frame_probs p mfcc_features none =
        extract_per_frame_probs p mfcc_features
          (some (List.replicate 2048 0, List.replicate 2048 0)) := by
  constructor
  · rfl
  · intro mfcc_features
    rfl

/-- C2: `extract_mfcc` raises `ValueError`, with a message naming the
expected 16 kHz rate, exactly when the sampling rate is off by more than
10% of 16000 Hz (i.e. `|sampling_rate - 16000| > 1600`) or the audio is
not single-channel; when it raises, the result is fixed before any
feature-library call, so it is the same for every pipeline (no feature
extraction or inference work contributes). -/
theorem ds_c2_rate_channel_validation (audio : NpArray) (sampling_rate : ℚ)
    (_hshape : audio.shape ≠ []) :
    ((1600 < |sampling_rate - 16000| ∨ channels audio ≠ 1) →
      ∀ p : Pipeline, extract_mfcc p audio sampling_rate =
        .error ⟨.valueError, "Input audio file should be 16.0 kHz mono"⟩)
    ∧ (¬ (1600 < |sampling_rate - 16000| ∨ channels audio ≠ 1) →
      ∀ p : Pipeline, ∃ feats,
        extract_mfcc p audio sampling_rate = .ok feats) := by
  have hcond : (model_sample_rate * (1/10) < |sampling_rate - model_sample_rate|
        ∨ channels audio ≠ 1)
      ↔ (1600 < |sampling_rate - 16000| ∨ channels audio ≠ 1) := by
    have h1 : model_sample_rate * (1/10) = (1600 : ℚ) := by
      norm_num [model_sample_rate]
    have h2 : model_sample_rate = (16000 : ℚ) := rfl
    rw [h1, h2]
  constructor
  · intro h p
    unfold extract_mfcc
    rw [if_pos (hcond.mpr h)]
  · intro h p
    unfold extract_mfcc
    rw [if_neg (fun hc => h (hcond.mp hc))]
    exact ⟨_, rfl⟩

/-- Witness for C2: a 44100 Hz input is rejected with the expected-rate
message. -/
theorem ds_c2_witness :
    extract_mfcc wPipeline wAudioF 44100 =
      .error ⟨.valueError, "Input audio file should be 16.0 kHz mono"⟩ :=
  (ds_c2_rate_channel_validation wAudioF 44100 (by decide)).1
    (Or.inl (by norm_num)) wPipeline

/-- C3: once `exec_net` is set, `activate_model` returns immediately:
the pipeline is unchanged in every field, whatever device is requested —
the first activation is latched for the pipeline's lifetime. -/
theorem ds_c3_activation_latched (p : Pipeline) (e : ExecNet)
    (he : p.exec_net = some e) (device : String) :
    activate_model p device = p := by
  simp [activate_model, he]

/-- Witness for C3: re-activating an activated pipeline on a different
device leaves it unchanged. -/
theorem ds_c3_witness : activate_model wPipeline "GPU" = wPipeline :=
  ds_c3_activation_latched wPipeline wExec rfl "GPU"

/-- C4: a pipeline constructed with `device=None` skips the
`activate_model` call at the end of `__init__`, so `exec_net` is still
`None`; `recognize_audio` (through `extract_per_frame_probs`, whatever
state argument were passed) then fails on the activation assertion, whose
message names the missing `activate` step, before any inference loop
iteration runs.  The hypothesis `hm` scopes the statement to audio that
passes validation, since `extract_mfcc` runs first. -/
theorem ds_c4_use_before_activation (ie : IECore) (lib : FeatureLib)
    (decoder : Decoder) (model : String) (model_bin : Option String)
    (p : Pipeline) (hinit : init ie lib decoder model model_bin none = .ok p)
    (audio : NpArray) (sampling_rate : ℚ) (feats : List Frame)
    (hm : extract_mfcc p audio sampling_rate = .ok feats) :
    p.exec_net = none
    ∧ recognize_audio p audio sampling_rate = .error ⟨.assertionError,
        "Need to call mds.activate(device) method before mds.stt(...)"⟩
    ∧ ∀ state, extract_per_frame_probs p feats state = .error ⟨.assertionError,
        "Need to call mds.activate(device) method before mds.stt(...)"⟩ := by
  have hp : p.exec_net = none := by
    simp only [init] at hinit
    injection hinit with h
    rw [← h]
  refine ⟨hp, ?_, ?_⟩
  · simp [recognize_audio, hm, extract_per_frame_probs, hp, Except.bind, Except.map]
  · intro state
    simp [extract_per_frame_probs, hp]

/-- Witness for C4: a pipeline built with no device rejects recognition
with the activation precondition message. -/
theorem ds_c4_witness :
    recognize_audio ⟨wIE, wLib, wDecoder, ⟨[]⟩, none, none⟩ wAudioF 16000 =
      .error ⟨.assertionError,
        "Need to call mds.activate(device) method before mds.stt(...)"⟩ :=
  (ds_c4_use_before_activation wIE wLib wDecoder "m.xml" none
    ⟨wIE, wLib, wDecoder, ⟨[]⟩, none, none⟩ rfl wAudioF 16000 []
    (by norm_num [extract_mfcc, channels, wAudioF, model_sample_rate, wLib,
      normalize_audio])).2.1

/-- C6 counterexample: the normalization divides by 32768 for *every*
integer dtype, so a sample beyond the `int16` range — here the largest
`int32` value — lands far outside `[-1, 1]`: the claim's range statement
fails on integer input that is not 16-bit. -/
theorem ds_c6_counterexample :
    wAudioI32.isInt = true
    ∧ ∃ y ∈ normalize_audio wAudioI32, 1 < y := by
  refine ⟨rfl, (2147483647 : ℚ) / 32768, ?_, by norm_num⟩
  simp [normalize_audio, wAudioI32]

/-- C6 (amended): integer-dtype samples are all divided by 32768, and the
results lie in `[-1, 1]` provided the samples are within the `int16` range
`[-32768, 32767]` (the normalization's stated intent, "int16 to
float32"); moreover `extract_mfcc` on the integer array coincides with
`extract_mfcc` on its pre-normalized floating equivalent, and a
floating-dtype array's samples are left unchanged. -/
theorem ds_c6_normalization (p : Pipeline) (a : NpArray) (sampling_rate : ℚ)
    (hint : a.isInt = true)
    (hrange : ∀ s ∈ a.data, -32768 ≤ s ∧ s ≤ 32767) :
    normalize_audio a = a.data.map (fun s => s / 32768)
    ∧ (∀ y ∈ normalize_audio a, -1 ≤ y ∧ y ≤ 1)
    ∧ extract_mfcc p a sampling_rate =
        extract_mfcc p ⟨a.shape, normalize_audio a, false⟩ sampling_rate
    ∧ ∀ b : NpArray, b.isInt = false → normalize_audio b = b.data := by
  have hmap : normalize_audio a = a.data.map (fun s => s / 32768) := by
    simp [normalize_audio, hint]
  refine ⟨hmap, ?_, ?_, ?_⟩
  · intro y hy
    rw [hmap] at hy
    obtain ⟨s, hs, rfl⟩ := List.mem_map.mp hy
    obtain ⟨h1, h2⟩ := hrange s hs
    constructor
    · rw [le_div_iff₀ (by norm_num : (0:ℚ) < 32768)]
      linarith
    · rw [div_le_one (by norm_num : (0:ℚ) < 32768)]
      linarith
  · have hch : channels ⟨a.shape, normalize_audio a, false⟩ = channels a := rfl
    simp only [extract_mfcc, hch]
    split
    · rfl
    · rfl
  · intro b hb
    simp [normalize_audio, hb]

/-- Witness for C6 (amended): an `int16`-range integer array is divided
through by 32768. -/
theorem ds_c6_witness :
    normalize_audio wAudioI16 = [(-32768 : ℚ) / 32768, (100 : ℚ) / 32768] := by
  have h := ds_c6_normalization wPipeline wAudioI16 16000 rfl (by decide)
  rw [h.1]
  rfl

/-- Edge padding adds `⌊19/2⌋ = 9` zero frames on each side. -/
theorem padded_features_len (feats : List Frame) :
    (padded_features feats).length = feats.length + 18 := by
  simp [padded_features, context_padding, num_context_frames]

/-- A chunk of at most the batch size is padded to exactly the batch
size by appending zero windows. -/
theorem padChunk_eq (b : List Window) (hb : b.length ≤ num_batch_frames) :
    padChunk b = b ++ List.replicate (num_batch_frames - b.length) zero_window := by
  by_cases hlt : b.length < num_batch_frames
  · simp [padChunk, hlt]
  · have heq : b.length = num_batch_frames := le_antisymm hb (not_lt.mp hlt)
    simp [padChunk, hlt, heq]

/-- Every padded chunk has exactly `num_batch_frames` windows. -/
theorem padChunk_len (b : List Window) (hb : b.length ≤ num_batch_frames) :
    (padChunk b).length = num_batch_frames := by
  rw [padChunk_eq b hb]
  simp
  omega

/-- Number of context-window positions over a padded frame list. -/
theorem context_windows_len (l : List Frame) :
    (context_windows l).length = l.length + 1 - num_context_frames := by
  simp [context_windows]

/-- Number of batches the chunk loop runs. -/
theorem toBatches_len (l : List Window) :
    (toBatches l).length =
      (l.length + (num_batch_frames - 1)) / num_batch_frames := by
  simp [toBatches]

/-- When every forward pass emits one logits row per batch slot, the
concatenated probability matrix has `num_batch_frames` rows per batch. -/
theorem runBatches_flatten_len (e : ExecNet)
    (hinfer : ∀ h c b, (e.infer h c b).logits.length = num_batch_frames) :
    ∀ (bs : List (List Window)) (h c : List ℚ),
      ((runBatches e h c bs).1.flatten).length = num_batch_frames * bs.length := by
  intro bs
  induction bs with
  | nil => intro h c; simp [runBatches]
  | cons b rest ih =>
    intro h c
    simp only [runBatches, List.flatten_cons, List.length_append, List.length_cons]
    rw [hinfer, ih]
    ring

/-- C7 counterexample: the edge padding is `num_context_frames // 2 = 9`
zero frames per side, 18 zero frames in total — not 19 as the claim (and
the spec) state.  On an empty feature list the padded input is exactly the
18 zero frames. -/
theorem ds_c7_counterexample :
    padded_features [] = List.replicate 18 zero_frame
    ∧ (padded_features []).length ≠ 19 := by
  constructor
  · rfl
  · decide

/-- C7 (amended): `extract_per_frame_probs` zero-pads the MFCC frames by
`⌊19/2⌋ = 9` frames at each input edge — 18 zero frames in total — and
zero-pads the final partial batch of context windows up to the fixed batch
size of 16. -/
theorem ds_c7_padding (feats : List Frame) (b : List Window)
    (hb : b.length ≤ num_batch_frames) :
    padded_features feats =
      List.replicate 9 zero_frame ++ feats ++ List.replicate 9 zero_frame
    ∧ (padded_features feats).length = feats.length + 18
    ∧ padChunk b = b ++ List.replicate (num_batch_frames - b.length) zero_window
    ∧ (padChunk b).length = 16 := by
  refine ⟨rfl, padded_features_len feats, padChunk_eq b hb, padChunk_len b hb⟩

/-- Witness for C7 (amended): a single-window final chunk is padded with
15 zero windows up to the batch size. -/
theorem ds_c7_witness :
    padChunk [zero_window] = [zero_window] ++ List.replicate 15 zero_window :=
  (ds_c7_padding [] [zero_window] (by decide)).2.2.1

/-- C9: with the fixed-batch network (one logits row per batch slot and
forward pass), the probability matrix `extract_per_frame_probs` returns —
and `recognize_audio` hands to the decoder — has its row count rounded up
to a multiple of the batch size: `16 * ⌈n / 16⌉` rows for `n = ` number of
context-window positions (which equals the MFCC frame count), because the
rows produced from the zero-padded tail of the final partial batch are
concatenated into the result rather than trimmed. -/
theorem ds_c9_row_count (p : Pipeline) (e : ExecNet) (feats : List Frame)
    (state : Option (List ℚ × List ℚ)) (probs : List (List ℚ))
    (st' : List ℚ × List ℚ)
    (he : p.exec_net = some e)
    (hinfer : ∀ h c b, (e.infer h c b).logits.length = num_batch_frames)
    (hres : extract_per_frame_probs p feats state = .ok (probs, st'))
    (hn : 0 < feats.length) :
    probs.length =
      num_batch_frames *
        ((feats.length + (num_batch_frames - 1)) / num_batch_frames) := by
  simp only [extract_per_frame_probs, he, Except.ok.injEq, Prod.mk.injEq] at hres
  obtain ⟨hprobs, -⟩ := hres
  rw [← hprobs, runBatches_flatten_len e hinfer, toBatches_len,
    context_windows_len, padded_features_len]
  have h19 : num_context_frames = 19 := rfl
  have h16 : num_batch_frames = 16 := rfl
  rw [h19, h16]
  omega

/-- Witness for C9: one MFCC frame gives one context window, and the
returned matrix has a full batch of 16 rows. -/
theorem ds_c9_witness :
    (List.replicate 16 ([] : List ℚ)).length =
      num_batch_frames *
        (((
          [zero_frame] : List Frame).length + (num_batch_frames - 1)) /
            num_batch_frames) :=
  ds_c9_row_count wPipeline16 wExec16 [zero_frame] none
    (List.replicate 16 []) ([], []) rfl
    (fun _ _ _ => by simp [wExec16, num_batch_frames]) (by decide) (by decide)

end DeepSpeech

namespace FaceGallery

/-- A fresh write is visible at its own path. -/
theorem lookup_write_self (fs : FS) (p : String) (c : Bytes) :
    (writeFile fs p c).lookup p = some c := by
  simp [writeFile]

/-- A write leaves every other path unchanged. -/
theorem lookup_write_ne (fs : FS) (p q : String) (c : Bytes) (h : q ≠ p) :
    (writeFile fs p c).lookup q = fs.lookup q := by
  simp [writeFile, List.lookup_cons, beq_false_of_ne h]

/-- One blob iteration touches no path but its own. -/
theorem syncBlob_lookup_ne (home : String) (fs fs' : FS) (b : Blob) (q : String)
    (h : syncBlob home fs b = .ok fs') (hq : q ≠ localPath home b.name) :
    fs'.lookup q = fs.lookup q := by
  unfold syncBlob at h
  by_cases hp : (List.lookup (localPath home b.name) fs).isSome = true
  · rw [if_pos hp] at h
    cases h
    rfl
  · rw [if_neg hp] at h
    cases hd : b.download with
    | ok c =>
      rw [hd] at h
      cases h
      exact lookup_write_ne fs _ q c hq
    | error e =>
      cases e with
      | resourceNotFound =>
        rw [hd] at h
        cases h
        rfl
      | other m =>
        rw [hd] at h
        cases h

/-- The blob loop touches no path outside its blobs' derived paths. -/
theorem syncBlobs_lookup_not_mem (home : String) (q : String) :
    ∀ (bs : List Blob) (fs fs' : FS),
      syncBlobs home fs bs = .ok fs' →
      q ∉ bs.map (fun b => localPath home b.name) →
      fs'.lookup q = fs.lookup q := by
  intro bs
  induction bs with
  | nil =>
    intro fs fs' h _
    cases h
    rfl
  | cons b0 rest ih =>
    intro fs fs' h hq
    simp only [List.map_cons, List.mem_cons, not_or] at hq
    obtain ⟨hq0, hqr⟩ := hq
    simp only [syncBlobs] at h
    cases hsb : syncBlob home fs b0 with
    | ok fs1 =>
      rw [hsb] at h
      rw [ih fs1 fs' h hqr, syncBlob_lookup_ne home fs fs1 b0 q hsb hq0]
    | error e =>
      rw [hsb] at h
      cases h

/-- A blob whose download succeeds never aborts its iteration. -/
theorem syncBlob_ok_of_download (home : String) (fs : FS) (b : Blob)
    (d : Bytes) (hd : b.download = .ok d) :
    ∃ fs1, syncBlob home fs b = .ok fs1 := by
  unfold syncBlob
  by_cases hp : (List.lookup (localPath home b.name) fs).isSome = true
  · rw [if_pos hp]
    exact ⟨fs, rfl⟩
  · rw [if_neg hp, hd]
    exact ⟨_, rfl⟩

/-- When every download succeeds the blob loop completes. -/
theorem syncBlobs_ok_of_downloads (home : String) :
    ∀ (bs : List Blob) (fs : FS),
      (∀ b ∈ bs, ∃ d, b.download = .ok d) →
      ∃ fs', syncBlobs home fs bs = .ok fs' := by
  intro bs
  induction bs with
  | nil => exact fun fs _ => ⟨fs, rfl⟩
  | cons b0 rest ih =>
    intro fs hok
    obtain ⟨d, hd⟩ := hok b0 (List.mem_cons_self b0 rest)
    obtain ⟨fs1, hfs1⟩ := syncBlob_ok_of_download home fs b0 d hd
    obtain ⟨fs', hfs'⟩ := ih fs1 (fun b hb => hok b (List.mem_cons_of_mem b0 hb))
    refine ⟨fs', ?_⟩
    simp only [syncBlobs, hfs1]
    exact hfs'

/-- Mirror invariant of the blob loop: when every download succeeds and
the derived paths are pairwise distinct, a blob missing locally ends up
stored with its downloaded bytes, and a blob already present keeps its
existing bytes. -/
theorem syncBlobs_mirror (home : String) :
    ∀ (bs : List Blob) (fs fs' : FS),
      syncBlobs home fs bs = .ok fs' →
      (bs.map fun b => localPath home b.name).Nodup →
      ∀ b ∈ bs, ∀ d, b.download = .ok d →
        (fs.lookup (localPath home b.name) = none →
          fs'.lookup (localPath home b.name) = some d)
        ∧ ∀ v, fs.lookup (localPath home b.name) = some v →
          fs'.lookup (localPath home b.name) = some v := by
  intro bs
  induction bs with
  | nil =>
    intro fs fs' _ _ b hb
    exact absurd hb (List.not_mem_nil b)
  | cons b0 rest ih =>
    intro fs fs' h hnd b hb d hd
    simp only [List.map_cons, List.nodup_cons] at hnd
    obtain ⟨hnd0, hndr⟩ := hnd
    simp only [syncBlobs] at h
    cases hsb : syncBlob home fs b0 with
    | error e =>
      rw [hsb] at h
      cases h
    | ok fs1 =>
      rw [hsb] at h
      rcases List.mem_cons.mp hb with rfl | hbr
      · have hrest : fs'.lookup (localPath home b.name) =
            fs1.lookup (localPath home b.name) :=
          syncBlobs_lookup_not_mem home _ rest fs1 fs' h hnd0
        unfold syncBlob at hsb
        constructor
        · intro hnone
          have hp : (List.lookup (localPath home b.name) fs).isSome = false := by
            rw [hnone]
            rfl
          rw [if_neg (by simp [hp]), hd] at hsb
          cases hsb
          rw [hrest, lookup_write_self]
        · intro v hv
          have hp : (List.lookup (localPath home b.name) fs).isSome = true := by
            rw [hv]
            rfl
          rw [if_pos hp] at hsb
          cases hsb
          rw [hrest, hv]
      · have hne : localPath home b.name ≠ localPath home b0.name := by
          intro hEq
          exact hnd0 (hEq ▸ List.mem_map_of_mem (fun x => localPath home x.name) hbr)
        have hfs1 : fs1.lookup (localPath home b.name) =
            fs.lookup (localPath home b.name) :=
          syncBlob_lookup_ne home fs fs1 b0 _ hsb hne
        obtain ⟨h1, h2⟩ := ih fs1 fs' h hndr b hbr d hd
        constructor
        · intro hnone
          exact h1 (by rw [hfs1, hnone])
        · intro v hv
          exact h2 v (by rw [hfs1, hv])

/-- The blob loop over a concatenation is the loop over the first part
followed, on success, by the loop over the second. -/
theorem syncBlobs_append (home : String) :
    ∀ (xs ys : List Blob) (fs : FS),
      syncBlobs home fs (xs ++ ys) =
        (syncBlobs home fs xs).bind fun fs1 => syncBlobs home fs1 ys := by
  intro xs
  induction xs with
  | nil => intro ys fs; rfl
  | cons x rest ih =>
    intro ys fs
    simp only [List.cons_append, syncBlobs]
    cases hsb : syncBlob home fs x with
    | ok fs1 => exact ih ys fs1
    | error e => rfl

/-- When every container's blob listing succeeds, the container loop is
the blob loop over all enumerated blobs in order. -/
theorem syncContainers_eq_syncBlobs (home : String) :
    ∀ (cs : List Container) (fs : FS),
      (∀ c ∈ cs, ∃ bs, c.blobs = .ok bs) →
      syncContainers home fs cs =
        syncBlobs home fs (cs.flatMap fun c =>
          match c.blobs with
          | .ok bs => bs
          | .error _ => []) := by
  intro cs
  induction cs with
  | nil => intro fs _; rfl
  | cons c rest ih =>
    intro fs hl
    obtain ⟨bs, hbs⟩ := hl c (List.mem_cons_self c rest)
    simp only [syncContainers, syncContainer, hbs, List.flatMap_cons,
      syncBlobs_append]
    cases hsb : syncBlobs home fs bs with
    | ok fs1 =>
      simp only [Except.bind]
      exact ih fs1 (fun c' hc' => hl c' (List.mem_cons_of_mem c hc'))
    | error e => rfl

/-- With the container listing available, `run_sample` is the blob loop
over the enumerated blobs, its error (if any) swallowed at top level. -/
theorem run_sample_eq_syncBlobs (home : String) (store : Store)
    (cs : List Container) (fs : FS)
    (hc : store.containers = .ok cs)
    (hl : ∀ c ∈ cs, ∃ bs, c.blobs = .ok bs) :
    run_sample home store fs =
      match syncBlobs home fs (enumBlobs store) with
      | .ok fs1 => fs1
      | .error (_, fs1) => fs1 := by
  unfold run_sample enumBlobs
  rw [hc]
  dsimp only
  rw [syncContainers_eq_syncBlobs home cs fs hl]

/-- C5 counterexample: two containers can carry the same blob name, and
the mirror path joins only the blob name (the per-container subdirectory
is commented out in the source).  Starting from an empty mirror, the blob
`"a"` of the second container was enumerated with its path absent locally
before the run, yet after the run its path holds the *first* container's
bytes, not a byte-identical copy of this blob's content. -/
theorem fg_c5_counterexample :
    ∃ b ∈ enumBlobs wStore,
      b.download = .ok [2]
      ∧ ([] : FS).lookup (localPath "h" b.name) = none
      ∧ (run_sample "h" wStore []).lookup (localPath "h" b.name) ≠ some [2] := by
  refine ⟨⟨"a", .ok [2]⟩, by decide, rfl, rfl, by decide⟩

/-- C5 (amended): provided the derived local paths of the enumerated
blobs are pairwise distinct (no blob-name collision across containers),
one `run_sample` run downloads each remotely-present, locally-absent blob
byte-identically to its derived path, and leaves each already-mirrored
path's content completely unchanged even if the remote differs. -/
theorem fg_c5_mirror_once (home : String) (store : Store) (fs : FS)
    (cs : List Container)
    (hc : store.containers = .ok cs)
    (hl : ∀ c ∈ cs, ∃ bs, c.blobs = .ok bs)
    (hok : ∀ b ∈ enumBlobs store, ∃ d, b.download = .ok d)
    (hnd : ((enumBlobs store).map fun b => localPath home b.name).Nodup) :
    ∀ b ∈ enumBlobs store, ∀ d, b.download = .ok d →
      (fs.lookup (localPath home b.name) = none →
        (run_sample home store fs).lookup (localPath home b.name) = some d)
      ∧ ∀ v, fs.lookup (localPath home b.name) = some v →
        (run_sample home store fs).lookup (localPath home b.name) = some v := by
  obtain ⟨fs', hfs'⟩ := syncBlobs_ok_of_downloads home (enumBlobs store) fs hok
  have hrun : run_sample home store fs = fs' := by
    rw [run_sample_eq_syncBlobs home store cs fs hc hl, hfs']
  intro b hb d hd
  rw [hrun]
  exact syncBlobs_mirror home (enumBlobs store) fs fs' hfs' hnd b hb d hd

/-- Witness for C5 (amended): with distinct names, the absent blob `"a"`
is mirrored with its exact remote bytes. -/
theorem fg_c5_witness :
    (run_sample "h" wStoreTwo wFS0).lookup (localPath "h" "a") = some [1] := by
  refine (fg_c5_mirror_once "h" wStoreTwo wFS0 _ rfl ?_ ?_ (by decide)
    ⟨"a", .ok [1]⟩ (by decide) [1] rfl).1 (by decide)
  · intro c hcm
    rw [List.mem_singleton] at hcm
    subst hcm
    exact ⟨_, rfl⟩
  · intro b hb
    simp only [enumBlobs, wStoreTwo, List.flatMap_cons, List.flatMap_nil,
      List.append_nil, List.mem_cons, List.not_mem_nil, or_false] at hb
    rcases hb with rfl | rfl
    · exact ⟨_, rfl⟩
    · exact ⟨_, rfl⟩

/-- C8: a `ResourceNotFoundError` in one blob's download is absorbed by
the per-blob handler and only that blob is skipped (the loop continues as
if the blob were not there); any other exception aborts the blob loop at
once with the filesystem as accumulated, propagates through the container
loop to the top-level handler — abandoning every remaining blob and
container — and a failure of the container listing itself likewise ends
the run; in all cases `run_sample` returns (no exception escapes it). -/
theorem fg_c8_error_handling (home : String) (fs : FS) (b : Blob)
    (rest : List Blob)
    (habs : fs.lookup (localPath home b.name) = none) :
    (b.download = .error .resourceNotFound →
      syncBlobs home fs (b :: rest) = syncBlobs home fs rest)
    ∧ (∀ m, b.download = .error (.other m) →
      syncBlobs home fs (b :: rest) = .error (.other m, fs))
    ∧ (∀ m (store : Store) (c : Container) (crest : List Container),
        b.download = .error (.other m) →
        store.containers = .ok (c :: crest) → c.blobs = .ok (b :: rest) →
        run_sample home store fs = fs)
    ∧ (∀ (store : Store) (e : SyncErr), store.containers = .error e →
        run_sample home store fs = fs) := by
  have hp : (List.lookup (localPath home b.name) fs).isSome = false := by
    rw [habs]
    rfl
  have hskip : b.download = .error .resourceNotFound →
      syncBlob home fs b = .ok fs := by
    intro hd
    unfold syncBlob
    rw [if_neg (by simp [hp]), hd]
  have habort : ∀ m, b.download = .error (.other m) →
      syncBlob home fs b = .error (.other m, fs) := by
    intro m hd
    unfold syncBlob
    rw [if_neg (by simp [hp]), hd]
  refine ⟨?_, ?_, ?_, ?_⟩
  · intro hd
    simp only [syncBlobs, hskip hd]
  · intro m hd
    simp only [syncBlobs, habort m hd]
  · intro m store c crest hd hc hcb
    have h2 : syncBlobs home fs (b :: rest) = .error (.other m, fs) := by
      simp only [syncBlobs, habort m hd]
    unfold run_sample
    rw [hc]
    dsimp only
    simp only [syncContainers, syncContainer, hcb, h2]
  · intro store e hc
    unfold run_sample
    rw [hc]

/-- Witness for C8: an unexpected download error on the first blob ends
the whole run — the healthy blob `"z"` after it is never mirrored and the
filesystem is returned as it was. -/
theorem fg_c8_witness : run_sample "h" wStoreBad [] = [] :=
  (fg_c8_error_handling "h" [] wBlobBad [⟨"z", .ok [7]⟩] rfl).2.2.1
    "boom" wStoreBad ⟨"c1", [], .ok [wBlobBad, ⟨"z", .ok [7]⟩]⟩ [] rfl rfl rfl

/-- C10: the `__main__` block calls `run_sample()` with zero arguments
while the function requires one positional parameter, so every script
invocation raises `TypeError` before the function body's `try` block is
entered: no sync work is attempted and the error is not caught. -/
theorem fg_c10_main_missing_argument (home : String) (fs : FS) :
    main_call_args < run_sample_required_args
    ∧ script_main home fs = .error ⟨.typeError,
        "run_sample() missing 1 required positional argument: azs_storage"⟩
    ∧ ∀ r, script_main home fs ≠ .ok r := by
  refine ⟨by decide, rfl, ?_⟩
  intro r h
  simp [script_main, call_run_sample] at h

end FaceGallery
